import Mathlib

/-!
Verification of the client-side data-synchronization core of a nutrition
tracking application.

The repository contains two parallel implementations of the reducer-driven
store described by the specification:

* `SupabaseStore` embeds `src/contexts/DataContext.tsx`: the Supabase-backed
  store (reducer `dataReducer`, `initialState`, and the action dispatch layer
  `addMeal` / `updateMeal` / `deleteMeal` / `updateSettings` /
  `exportData` / `importData`).  Calls to the remote persistence collaborator
  (Supabase) are modelled by oracle functions passed to each action: the
  oracle's result is the settled value of the corresponding awaited call.
  The remote CHECK constraints come from
  `supabase/migrations/20250708050758-....sql`.
* `LocalStore` embeds the localStorage-backed variant (`unnamed/part_011`):
  its `dataReducer`, `initialState`, and `addMeal`.

Machine integers do not occur: calories are JS numbers used as integers
(embedded as `Int`) and protein is a decimal quantity (embedded as `Rat`;
all values appearing in the claims are exact decimals).
-/

namespace SupabaseStore

/-- Row of the `meals` table (`Tables<'meals'>`), per the migration SQL:
`image_url` is the only nullable column. -/
structure Meal where
  id : String
  food_name : String
  amount : String
  calories : Int
  protein : Rat
  date : String
  time : String
  image_url : Option String
  created_at : String
  updated_at : String
deriving Repr, DecidableEq

/-- Row of the `settings` table (`Tables<'settings'>`). -/
structure Settings where
  id : String
  daily_calories : Int
  daily_protein : Rat
  created_at : String
  updated_at : String
deriving Repr, DecidableEq

/-- A `Partial<Meal>` value: every column optional.  Spreading it over a
meal (the update over the meal) replaces exactly the present fields. -/
structure MealUpdate where
  id : Option String := none
  food_name : Option String := none
  amount : Option String := none
  calories : Option Int := none
  protein : Option Rat := none
  date : Option String := none
  time : Option String := none
  image_url : Option (Option String) := none
  created_at : Option String := none
  updated_at : Option String := none
deriving Repr, DecidableEq

/-- JS object spread the update over the meal. -/
def applyMealUpdate (meal : Meal) (u : MealUpdate) : Meal :=
  { id := u.id.getD meal.id
    food_name := u.food_name.getD meal.food_name
    amount := u.amount.getD meal.amount
    calories := u.calories.getD meal.calories
    protein := u.protein.getD meal.protein
    date := u.date.getD meal.date
    time := u.time.getD meal.time
    image_url := u.image_url.getD meal.image_url
    created_at := u.created_at.getD meal.created_at
    updated_at := u.updated_at.getD meal.updated_at }

/-- A `Partial<Settings>` value. -/
structure SettingsUpdate where
  id : Option String := none
  daily_calories : Option Int := none
  daily_protein : Option Rat := none
  created_at : Option String := none
  updated_at : Option String := none
deriving Repr, DecidableEq

/-- The `DataState` interface of `DataContext.tsx`. -/
structure DataState where
  meals : List Meal
  settings : Settings
  isLoading : Bool
  error : Option String
deriving Repr, DecidableEq

/-- The `DataAction` union type of `DataContext.tsx`. -/
inductive DataAction where
  | SET_LOADING (b : Bool)
  | SET_ERROR (e : Option String)
  | SET_MEALS (ms : List Meal)
  | ADD_MEAL (m : Meal)
  | UPDATE_MEAL (id : String) (updates : MealUpdate)
  | DELETE_MEAL (id : String)
  | SET_SETTINGS (s : Settings)
deriving Repr, DecidableEq

/-- The `initialState` constant of `DataContext.tsx`. -/
def initialState : DataState :=
  { meals := []
    settings :=
      { id := ""
        daily_calories := 2000
        daily_protein := 150
        created_at := ""
        updated_at := "" }
    isLoading := true
    error := none }

/-- The `dataReducer` of `DataContext.tsx`, case for case:
`ADD_MEAL` appends unconditionally, `UPDATE_MEAL` maps a conditional merge
over the collection, `DELETE_MEAL` filters by identifier,
`SET_ERROR` also clears the loading flag. -/
def dataReducer (state : DataState) (action : DataAction) : DataState :=
  match action with
  | .SET_LOADING b => { state with isLoading := b }
  | .SET_ERROR e => { state with error := e, isLoading := false }
  | .SET_MEALS ms => { state with meals := ms }
  | .ADD_MEAL m => { state with meals := state.meals ++ [m] }
  | .UPDATE_MEAL id updates =>
      { state with
        meals := state.meals.map fun meal =>
          if meal.id = id then applyMealUpdate meal updates else meal }
  | .DELETE_MEAL id =>
      { state with meals := state.meals.filter fun meal => meal.id != id }
  | .SET_SETTINGS s => { state with settings := s }

end SupabaseStore

namespace LocalStore

/-- The `MealData` interface of the localStorage-backed variant. -/
structure MealData where
  id : String
  date : String
  time : String
  food_name : String
  amount : String
  calories : Int
  protein : Rat
  carbs : Rat
  fat : Rat
  fiber : Rat
  sugar : Rat
  sodium : Rat
  image_url : String
  created_at : String
  updated_at : String
deriving Repr, DecidableEq

/-- The `DailyGoals` interface. -/
structure DailyGoals where
  calories : Int
  protein : Rat
deriving Repr, DecidableEq

/-- The notification switches inside `AppSettings`. -/
structure NotificationPrefs where
  mealReminders : Bool
  goalReminders : Bool
  waterReminders : Bool
deriving Repr, DecidableEq

/-- The `theme` field of `AppSettings`. -/
inductive Theme where
  | light
  | dark
deriving Repr, DecidableEq

/-- The `AppSettings` interface. -/
structure AppSettings where
  dailyGoals : DailyGoals
  notifications : NotificationPrefs
  language : String
  theme : Theme
deriving Repr, DecidableEq

/-- A `Partial<AppSettings>` value: the shallow spread in the reducer
replaces present top-level fields wholesale. -/
structure AppSettingsUpdate where
  dailyGoals : Option DailyGoals := none
  notifications : Option NotificationPrefs := none
  language : Option String := none
  theme : Option Theme := none
deriving Repr, DecidableEq

/-- JS object spread spreading the update over the settings. -/
def applySettingsUpdate (s : AppSettings) (u : AppSettingsUpdate) : AppSettings :=
  { dailyGoals := u.dailyGoals.getD s.dailyGoals
    notifications := u.notifications.getD s.notifications
    language := u.language.getD s.language
    theme := u.theme.getD s.theme }

/-- The `DataState` interface of the localStorage-backed variant. -/
structure DataState where
  meals : List MealData
  settings : AppSettings
  isLoading : Bool
  error : Option String
deriving Repr, DecidableEq

/-- The `DataAction` union of the localStorage-backed variant; its
`UPDATE_MEAL` payload is a whole `MealData` record. -/
inductive DataAction where
  | SET_LOADING (b : Bool)
  | SET_ERROR (e : Option String)
  | LOAD_DATA (meals : List MealData) (settings : AppSettings)
  | ADD_MEAL (m : MealData)
  | UPDATE_MEAL (m : MealData)
  | DELETE_MEAL (id : String)
  | UPDATE_SETTINGS (u : AppSettingsUpdate)
deriving Repr, DecidableEq

/-- The `initialSettings` constant. -/
def initialSettings : AppSettings :=
  { dailyGoals := { calories := 2000, protein := 150 }
    notifications :=
      { mealReminders := false, goalReminders := false, waterReminders := false }
    language := "en"
    theme := .light }

/-- The `initialState` constant of the localStorage-backed variant. -/
def initialState : DataState :=
  { meals := []
    settings := initialSettings
    isLoading := false
    error := none }

/-- The `dataReducer` of the localStorage-backed variant, case for case.
Note that its `SET_ERROR` case leaves `isLoading` unchanged, and the
mutation cases reset `error` to null. -/
def dataReducer (state : DataState) (action : DataAction) : DataState :=
  match action with
  | .SET_LOADING b => { state with isLoading := b }
  | .SET_ERROR e => { state with error := e }
  | .LOAD_DATA meals settings =>
      { state with meals := meals, settings := settings, isLoading := false, error := none }
  | .ADD_MEAL m => { state with meals := state.meals ++ [m], error := none }
  | .UPDATE_MEAL m =>
      { state with
        meals := state.meals.map fun meal => if meal.id = m.id then m else meal
        error := none }
  | .DELETE_MEAL id =>
      { state with meals := state.meals.filter (fun meal => meal.id != id), error := none }
  | .UPDATE_SETTINGS u =>
      { state with settings := applySettingsUpdate state.settings u, error := none }

/-- The argument type of this variant of `addMeal`:
`Omit<MealData, 'id' | 'created_at' | 'updated_at'>`. -/
structure MealInput where
  date : String
  time : String
  food_name : String
  amount : String
  calories : Int
  protein : Rat
  carbs : Rat
  fat : Rat
  fiber : Rat
  sugar : Rat
  sodium : Rat
  image_url : String
deriving Repr, DecidableEq

/-- The localStorage-backed `addMeal`: builds the full record with a locally
generated identifier (`generateId()`, passed here as `genId`) and the current
timestamp `now`, dispatches `ADD_MEAL`, and resolves with the new record. -/
def addMeal (genId now : String) (mealData : MealInput) (s : DataState) :
    DataState × MealData :=
  let newMeal : MealData :=
    { id := genId
      date := mealData.date
      time := mealData.time
      food_name := mealData.food_name
      amount := mealData.amount
      calories := mealData.calories
      protein := mealData.protein
      carbs := mealData.carbs
      fat := mealData.fat
      fiber := mealData.fiber
      sugar := mealData.sugar
      sodium := mealData.sodium
      image_url := mealData.image_url
      created_at := now
      updated_at := now }
  (dataReducer s (.ADD_MEAL newMeal), newMeal)

end LocalStore

namespace SupabaseStore

/-- Errors surfaced by the remote persistence collaborator: a server-side
CHECK constraint violation (from the migration SQL) or any other failure. -/
inductive DbError where
  | checkViolation
  | failure (msg : String)
deriving Repr, DecidableEq

/-- The argument type of `addMeal`:
`Omit<Meal, 'id' | 'created_at' | 'updated_at'>`. -/
structure MealInput where
  food_name : String
  amount : String
  calories : Int
  protein : Rat
  date : String
  time : String
  image_url : Option String
deriving Repr, DecidableEq

/-- The `addMeal` action of `DataContext.tsx`.  `create` is the remote
collaborator call `supabase.from('meals').insert([mealData]).select().single()`;
on success the returned full record is dispatched via `ADD_MEAL`, on failure
nothing is dispatched and the error is rethrown to the caller. -/
def addMeal (create : MealInput → Except DbError Meal) (mealData : MealInput)
    (s : DataState) : DataState × Except DbError Unit :=
  match create mealData with
  | .error e => (s, .error e)
  | .ok data => (dataReducer s (.ADD_MEAL data), .ok ())

/-- The `updateMeal` action of `DataContext.tsx`.  `update` is the remote
call `supabase.from('meals').update(updates).eq('id', id)`; on success
`UPDATE_MEAL` is dispatched with the same id and updates, on failure nothing
is dispatched and the error is rethrown. -/
def updateMeal (update : String → MealUpdate → Except DbError Unit) (id : String)
    (updates : MealUpdate) (s : DataState) : DataState × Except DbError Unit :=
  match update id updates with
  | .error e => (s, .error e)
  | .ok _ => (dataReducer s (.UPDATE_MEAL id updates), .ok ())

/-- The `deleteMeal` action of `DataContext.tsx`.  `deleteRow` is the remote
call `supabase.from('meals').delete().eq('id', id)`; on success `DELETE_MEAL`
is dispatched, on failure nothing is dispatched and the error is rethrown. -/
def deleteMeal (deleteRow : String → Except DbError Unit) (id : String)
    (s : DataState) : DataState × Except DbError Unit :=
  match deleteRow id with
  | .error e => (s, .error e)
  | .ok _ => (dataReducer s (.DELETE_MEAL id), .ok ())

/-- The `updateSettings` action of `DataContext.tsx`.  The remote call
`supabase.from('settings').update(updates).eq('id', ...).select().single()`
is issued unconditionally (there is no local validation), so the middle
component — the list of requests sent to the persistence layer — is always
`[updates]`.  On success the returned row is dispatched via `SET_SETTINGS`;
on failure nothing is dispatched and the error is rethrown. -/
def updateSettings (update : SettingsUpdate → Except DbError Settings)
    (updates : SettingsUpdate) (s : DataState) :
    DataState × List SettingsUpdate × Except DbError Unit :=
  match update updates with
  | .error e => (s, [updates], .error e)
  | .ok data => (dataReducer s (.SET_SETTINGS data), [updates], .ok ())

/-- Modelled from the spec (&sect;6 remote collaborator contract) and the
migration SQL, which are the only sources for the behaviour of the hosted
backend: an update of the singleton `settings` row merges the present fields
into the row, the `update_updated_at_column` trigger re-stamps `updated_at`,
and the CHECK constraints `daily_calories > 0` and `daily_protein > 0` reject
the write server-side. -/
def dbUpdateSettings (row : Settings) (now : String) (u : SettingsUpdate) :
    Except DbError Settings :=
  let merged : Settings :=
    { id := u.id.getD row.id
      daily_calories := u.daily_calories.getD row.daily_calories
      daily_protein := u.daily_protein.getD row.daily_protein
      created_at := u.created_at.getD row.created_at
      updated_at := now }
  if 0 < merged.daily_calories ∧ 0 < merged.daily_protein then .ok merged
  else .error .checkViolation

/-- The parsed form of the JSON document `exportData` produces and
`importData` consumes: `importData` checks `importedData.meals` is a present
array and `importedData.settings` is present, so both are optional here.
`JSON.parse` of `JSON.stringify` of this object is the object itself. -/
structure ExportPayload where
  meals : Option (List Meal)
  settings : Option Settings
  exportedAt : String
deriving Repr, DecidableEq

/-- The `exportData` action of `DataContext.tsx`: serializes the current
meals, the settings record and an export timestamp (`now`). -/
def exportData (s : DataState) (now : String) : ExportPayload :=
  { meals := some s.meals, settings := some s.settings, exportedAt := now }

/-- Destructuring of one imported meal inside the `importData` loop:
identifier and timestamps are stripped and falsy (empty) date and time fall
back to the current date and time. -/
def toMealInput (nowDate nowTime : String) (m : Meal) : MealInput :=
  { food_name := m.food_name
    amount := m.amount
    calories := m.calories
    protein := m.protein
    date := if m.date = "" then nowDate else m.date
    time := if m.time = "" then nowTime else m.time
    image_url := m.image_url }

/-- Destructuring of the imported settings inside `importData`: identifier
and timestamps are stripped, the goal fields are kept. -/
def stripSettings (st : Settings) : SettingsUpdate :=
  { id := none
    daily_calories := some st.daily_calories
    daily_protein := some st.daily_protein
    created_at := none
    updated_at := none }

/-- The meal loop of `importData`: each imported meal is stripped and passed
to `addMeal` in order.  `addMeal` rethrows a failed create, which propagates
out of the loop, so the loop stops at the first failing record.  The middle
component of the result lists the create requests actually attempted. -/
def importMeals (create : MealInput → Except DbError Meal) (nowDate nowTime : String) :
    List Meal → DataState → DataState × List MealInput × Except DbError Unit
  | [], s => (s, [], .ok ())
  | m :: rest, s =>
    let inp := toMealInput nowDate nowTime m
    match create inp with
    | .error e => (s, [inp], .error e)
    | .ok data =>
      let next := importMeals create nowDate nowTime rest (dataReducer s (.ADD_MEAL data))
      (next.1, inp :: next.2.1, next.2.2)

/-- The settings step of `importData`: when the payload carries a settings
record it is stripped and passed to `updateSettings`; its failure also
rethrows out of `importData`. -/
def importSettingsStep (update : SettingsUpdate → Except DbError Settings)
    (payload : ExportPayload) (s : DataState) : DataState × Except DbError Unit :=
  match payload.settings with
  | none => (s, .ok ())
  | some st =>
    match update (stripSettings st) with
    | .error e => (s, .error e)
    | .ok data => (dataReducer s (.SET_SETTINGS data), .ok ())

/-- The `importData` action of `DataContext.tsx`: the meal loop runs first;
any error aborts the whole import (the catch block rethrows), leaving the
records already added in place; then the settings step runs.  The middle
component lists the create requests attempted. -/
def importData (create : MealInput → Except DbError Meal)
    (update : SettingsUpdate → Except DbError Settings)
    (nowDate nowTime : String) (payload : ExportPayload) (s : DataState) :
    DataState × List MealInput × Except DbError Unit :=
  let step1 : DataState × List MealInput × Except DbError Unit :=
    match payload.meals with
    | none => (s, [], .ok ())
    | some ms => importMeals create nowDate nowTime ms s
  match step1 with
  | (s1, att, .error e) => (s1, att, .error e)
  | (s1, att, .ok _) =>
    let step2 := importSettingsStep update payload s1
    (step2.1, att, step2.2)

/-- Validity of a meal record per the action layer contract (&sect;4.2) and
the data-model invariants (&sect;3): non-empty date, time, food name and
amount; non-negative calories and protein. -/
def validMeal (m : Meal) : Prop :=
  m.date ≠ "" ∧ m.time ≠ "" ∧ m.food_name ≠ "" ∧ m.amount ≠ "" ∧
    0 ≤ m.calories ∧ 0 ≤ m.protein

instance (m : Meal) : Decidable (validMeal m) := by
  unfold validMeal
  infer_instance

/-- The client-supplied fields of a stored meal record (everything except the
server-assigned identifier and timestamps). -/
def mealFields (m : Meal) : String × String × String × String × Int × Rat × Option String :=
  (m.date, m.time, m.food_name, m.amount, m.calories, m.protein, m.image_url)

/-- The same fields of a create request. -/
def inputFields (inp : MealInput) :
    String × String × String × String × Int × Rat × Option String :=
  (inp.date, inp.time, inp.food_name, inp.amount, inp.calories, inp.protein, inp.image_url)

end SupabaseStore

namespace SettingsPanel

/-- The `DailyGoals` interface of `SettingsPanel.tsx` (the value handed to
`onGoalsUpdate`, which the page wires to `updateSettings`). -/
structure DailyGoals where
  calories : Int
  protein : Rat
deriving Repr, DecidableEq

/-- The `handleSave` handler of `SettingsPanel.tsx`.  Its inputs are the
results of `parseInt(calories)` and `parseFloat(protein)` (`none` standing
for `NaN`).  When a value is `NaN` or non-positive the handler shows a
validation toast and returns early — result `none`, `onGoalsUpdate` (and so
`updateSettings`) is never invoked; otherwise it passes the goals on. -/
def handleSave (newCalories : Option Int) (newProtein : Option Rat) :
    Option DailyGoals :=
  match newCalories, newProtein with
  | some c, some p => if c ≤ 0 ∨ p ≤ 0 then none else some { calories := c, protein := p }
  | _, _ => none

end SettingsPanel

namespace SupabaseStore

/-- Concrete meal record used by concrete counterexamples and witnesses:
the add-then-list scenario record of the spec, already stored under
identifier m1. -/
def mealM1 : Meal :=
  { id := "m1"
    food_name := "Test Food"
    amount := "100g"
    calories := 200
    protein := 15
    date := "2025-07-08"
    time := "12:30"
    image_url := none
    created_at := "t0"
    updated_at := "t0" }

/-- A second concrete meal record with a distinct identifier and name. -/
def mealM2 : Meal :=
  { mealM1 with id := "m2", food_name := "Second Food" }

/-- A concrete ready state holding exactly the record `mealM1`. -/
def testState : DataState :=
  { meals := [mealM1]
    settings := initialState.settings
    isLoading := false
    error := none }

/-- A remote create response that echoes the request fields under a fixed
fresh identifier and timestamp, as the collaborator contract requires. -/
def echoCreate (inp : MealInput) : Meal :=
  { id := "fresh"
    food_name := inp.food_name
    amount := inp.amount
    calories := inp.calories
    protein := inp.protein
    date := inp.date
    time := inp.time
    image_url := inp.image_url
    created_at := "now"
    updated_at := "now" }

/-- A create oracle that always succeeds, echoing the request. -/
def okCreate : MealInput → Except DbError Meal :=
  fun inp => .ok (echoCreate inp)

/-- A create oracle that rejects exactly the requests for the food name
Test Food and echoes every other request. -/
def failOnTestFood : MealInput → Except DbError Meal :=
  fun inp =>
    if inp.food_name = "Test Food" then .error (.failure "insert failed")
    else .ok (echoCreate inp)

/-- A settings-update oracle that always succeeds, echoing the requested
goal fields into the singleton row. -/
def okSettingsUpdate : SettingsUpdate → Except DbError Settings :=
  fun u =>
    .ok
      { id := "s1"
        daily_calories := u.daily_calories.getD 2000
        daily_protein := u.daily_protein.getD 150
        created_at := "c0"
        updated_at := "u0" }

/-- The settings update of the validation-gate scenario: daily calories 0
(violating the positivity invariant), daily protein 150. -/
def invalidGoalsUpdate : SettingsUpdate :=
  { daily_calories := some 0, daily_protein := some 150 }

end SupabaseStore

namespace LocalStore

/-- The add-then-list scenario input of the spec, with the remaining
(unmentioned) nutrient fields zero and no image. -/
def testLsInput : MealInput :=
  { date := "2025-07-08"
    time := "12:30"
    food_name := "Test Food"
    amount := "100g"
    calories := 200
    protein := 15
    carbs := 0
    fat := 0
    fiber := 0
    sugar := 0
    sodium := 0
    image_url := "" }

/-- A concrete localStorage-variant meal record stored under identifier n1. -/
def lsMealN1 : MealData :=
  { id := "n1"
    date := "2025-07-08"
    time := "08:00"
    food_name := "Breakfast"
    amount := "1 bowl"
    calories := 350
    protein := 12
    carbs := 40
    fat := 10
    fiber := 5
    sugar := 8
    sodium := 300
    image_url := ""
    created_at := "t0"
    updated_at := "t0" }

/-- A concrete localStorage-variant state that is loading (as after the
`SET_LOADING(true)` dispatched at the start of `loadData`). -/
def loadingLsState : DataState :=
  { meals := []
    settings := initialSettings
    isLoading := true
    error := none }

/-- A concrete localStorage-variant ready state holding `lsMealN1`. -/
def lsTestState : DataState :=
  { meals := [lsMealN1]
    settings := initialSettings
    isLoading := false
    error := none }

end LocalStore

namespace SupabaseStore

/-- Mapping the conditional merge of an `UPDATE_MEAL` over a collection in
which the identifier does not occur touches no element. -/
theorem map_update_eq_self (ms : List Meal) (id : String) (updates : MealUpdate)
    (h : ∀ m ∈ ms, m.id ≠ id) :
    (ms.map fun meal => if meal.id = id then applyMealUpdate meal updates else meal) = ms := by
  induction ms with
  | nil => rfl
  | cons m rest ih =>
    simp only [List.map_cons]
    rw [if_neg (h m (List.mem_cons_self m rest))]
    rw [ih fun x hx => h x (List.mem_cons_of_mem m hx)]

/-- Filtering out an identifier that does not occur in the collection keeps
every element. -/
theorem filter_ne_eq_self (ms : List Meal) (id : String)
    (h : ∀ m ∈ ms, m.id ≠ id) :
    (ms.filter fun meal => meal.id != id) = ms := by
  rw [List.filter_eq_self]
  intro a ha
  simpa using h a ha

end SupabaseStore

namespace LocalStore

/-- The localStorage-variant `UPDATE_MEAL` merge is the identity on a
collection in which the payload identifier does not occur. -/
theorem local_map_update_eq_self (ms : List MealData) (pm : MealData)
    (h : ∀ m ∈ ms, m.id ≠ pm.id) :
    (ms.map fun meal => if meal.id = pm.id then pm else meal) = ms := by
  induction ms with
  | nil => rfl
  | cons m rest ih =>
    simp only [List.map_cons]
    rw [if_neg (h m (List.mem_cons_self m rest))]
    rw [ih fun x hx => h x (List.mem_cons_of_mem m hx)]

/-- The localStorage-variant `DELETE_MEAL` filter is the identity on a
collection in which the identifier does not occur. -/
theorem local_filter_ne_eq_self (ms : List MealData) (id : String)
    (h : ∀ m ∈ ms, m.id ≠ id) :
    (ms.filter fun meal => meal.id != id) = ms := by
  rw [List.filter_eq_self]
  intro a ha
  simpa using h a ha

end LocalStore

namespace SupabaseStore

/-- C1 counterexample: dispatching `ADD_MEAL` twice with the same record on
the freshly initialized store yields a collection containing TWO records
with that identifier, not exactly one — the second dispatch is not a no-op,
so the claimed no-duplicate-identifier invariant fails. -/
theorem add_meal_not_idempotent_cex :
    ((dataReducer (dataReducer initialState (.ADD_MEAL mealM1)) (.ADD_MEAL mealM1)).meals.countP
        fun m => m.id == "m1") = 2 ∧
      ¬ (((dataReducer (dataReducer initialState (.ADD_MEAL mealM1)) (.ADD_MEAL mealM1)).meals.countP
        fun m => m.id == "m1") = 1) := by
  decide

/-- C1 as amended: in both reducers the `ADD_MEAL` case appends the payload
unconditionally, so dispatching it twice with the same record appends the
record twice and the collection then holds two records with that
identifier. -/
theorem add_meal_duplicate_appends :
    ∀ (s : DataState) (m : Meal) (ls : LocalStore.DataState) (pm : LocalStore.MealData),
      (dataReducer (dataReducer s (.ADD_MEAL m)) (.ADD_MEAL m)).meals = s.meals ++ [m, m] ∧
      (LocalStore.dataReducer (LocalStore.dataReducer ls (.ADD_MEAL pm)) (.ADD_MEAL pm)).meals
        = ls.meals ++ [pm, pm] := by
  intro s m ls pm
  constructor
  · simp [dataReducer]
  · simp [LocalStore.dataReducer]

/-- C2: when the remote create, update or delete call rejects, the
corresponding action resolves to the unchanged starting state (so the meal
collection and settings are identical before and after), dispatches nothing,
and rejects with the same error rather than swallowing it. -/
theorem action_failure_preserves_state :
    ∀ (s : DataState) (e : DbError)
      (create : MealInput → Except DbError Meal) (inp : MealInput)
      (update : String → MealUpdate → Except DbError Unit) (id : String) (updates : MealUpdate)
      (deleteRow : String → Except DbError Unit),
      create inp = .error e →
      update id updates = .error e →
      deleteRow id = .error e →
      addMeal create inp s = (s, .error e) ∧
      updateMeal update id updates s = (s, .error e) ∧
      deleteMeal deleteRow id s = (s, .error e) := by
  intro s e create inp update id updates deleteRow hc hu hd
  refine ⟨?_, ?_, ?_⟩
  · simp [addMeal, hc]
  · simp [updateMeal, hu]
  · simp [deleteMeal, hd]

/-- Witness for C2: every action applied to a concrete rejecting remote at
the ready state containing one meal. -/
theorem action_failure_preserves_state_witness :
    addMeal (fun _ => .error (.failure "down")) (toMealInput "d" "t" mealM2) testState
        = (testState, .error (.failure "down")) ∧
      updateMeal (fun _ _ => .error (.failure "down")) "m1" {} testState
        = (testState, .error (.failure "down")) ∧
      deleteMeal (fun _ => .error (.failure "down")) "m1" testState
        = (testState, .error (.failure "down")) :=
  action_failure_preserves_state testState (.failure "down")
    (fun _ => .error (.failure "down")) (toMealInput "d" "t" mealM2)
    (fun _ _ => .error (.failure "down")) "m1" {}
    (fun _ => .error (.failure "down")) rfl rfl rfl

/-- C8 counterexample: in the localStorage-backed reducer, dispatching
`SET_ERROR` on a state whose loading is in progress sets the error value but
leaves the loading flag true — the claim demands it become false. -/
theorem local_set_error_keeps_loading_cex :
    (LocalStore.dataReducer LocalStore.loadingLsState
        (.SET_ERROR (some "Failed to load data"))).error = some "Failed to load data" ∧
      ¬ ((LocalStore.dataReducer LocalStore.loadingLsState
        (.SET_ERROR (some "Failed to load data"))).isLoading = false) := by
  decide

/-- C8 as amended: the Supabase-backed reducer sets the error value and
clears the loading flag on `SET_ERROR`; the localStorage-backed reducer sets
the error value but leaves the loading flag exactly as it was. -/
theorem set_error_loading_behavior :
    ∀ (s : DataState) (msg : Option String) (ls : LocalStore.DataState),
      (dataReducer s (.SET_ERROR msg)).error = msg ∧
      (dataReducer s (.SET_ERROR msg)).isLoading = false ∧
      (LocalStore.dataReducer ls (.SET_ERROR msg)).error = msg ∧
      (LocalStore.dataReducer ls (.SET_ERROR msg)).isLoading = ls.isLoading := by
  intro s msg ls
  exact ⟨rfl, rfl, rfl, rfl⟩

/-- C9: the freshly initialized store of either variant, before any data has
loaded and before any updateSettings call, reports a daily calorie goal of
2000 and a daily protein goal of 150.0, with an empty meal collection. -/
theorem initial_settings_defaults :
    initialState.settings.daily_calories = 2000 ∧
      initialState.settings.daily_protein = 150 ∧
      initialState.meals = [] ∧
      LocalStore.initialState.settings.dailyGoals.calories = 2000 ∧
      LocalStore.initialState.settings.dailyGoals.protein = 150 ∧
      LocalStore.initialState.meals = [] := by
  refine ⟨rfl, ?_, rfl, rfl, ?_, rfl⟩ <;> norm_num [initialState, LocalStore.initialState,
    LocalStore.initialSettings]

/-- C10: in the Supabase-backed reducer, the meal mutations `ADD_MEAL`,
`UPDATE_MEAL` and `DELETE_MEAL` leave settings, isLoading and error
unchanged, and `SET_SETTINGS` leaves meals, isLoading and error
unchanged. -/
theorem supabase_reducer_frame_conditions :
    ∀ (s : DataState) (m : Meal) (id : String) (updates : MealUpdate) (st : Settings),
      (dataReducer s (.ADD_MEAL m)).settings = s.settings ∧
      (dataReducer s (.ADD_MEAL m)).isLoading = s.isLoading ∧
      (dataReducer s (.ADD_MEAL m)).error = s.error ∧
      (dataReducer s (.UPDATE_MEAL id updates)).settings = s.settings ∧
      (dataReducer s (.UPDATE_MEAL id updates)).isLoading = s.isLoading ∧
      (dataReducer s (.UPDATE_MEAL id updates)).error = s.error ∧
      (dataReducer s (.DELETE_MEAL id)).settings = s.settings ∧
      (dataReducer s (.DELETE_MEAL id)).isLoading = s.isLoading ∧
      (dataReducer s (.DELETE_MEAL id)).error = s.error ∧
      (dataReducer s (.SET_SETTINGS st)).meals = s.meals ∧
      (dataReducer s (.SET_SETTINGS st)).isLoading = s.isLoading ∧
      (dataReducer s (.SET_SETTINGS st)).error = s.error := by
  intro s m id updates st
  exact ⟨rfl, rfl, rfl, rfl, rfl, rfl, rfl, rfl, rfl, rfl, rfl, rfl⟩

end SupabaseStore

namespace SupabaseStore

/-- C3: dispatching `UPDATE_MEAL` or `DELETE_MEAL` for an identifier absent
from the meal collection leaves the collection exactly unchanged in both
reducers — a silent no-op, not an error. -/
theorem unknown_id_update_delete_noop (s : DataState) (id : String) (updates : MealUpdate)
    (ls : LocalStore.DataState) (pm : LocalStore.MealData) (lid : String)
    (h : ∀ m ∈ s.meals, m.id ≠ id)
    (hLu : ∀ m ∈ ls.meals, m.id ≠ pm.id)
    (hLd : ∀ m ∈ ls.meals, m.id ≠ lid) :
    (dataReducer s (.UPDATE_MEAL id updates)).meals = s.meals ∧
      (dataReducer s (.DELETE_MEAL id)).meals = s.meals ∧
      (LocalStore.dataReducer ls (.UPDATE_MEAL pm)).meals = ls.meals ∧
      (LocalStore.dataReducer ls (.DELETE_MEAL lid)).meals = ls.meals := by
  refine ⟨?_, ?_, ?_, ?_⟩
  · simpa [dataReducer] using map_update_eq_self s.meals id updates h
  · simpa [dataReducer] using filter_ne_eq_self s.meals id h
  · simpa [LocalStore.dataReducer] using LocalStore.local_map_update_eq_self ls.meals pm hLu
  · simpa [LocalStore.dataReducer] using LocalStore.local_filter_ne_eq_self ls.meals lid hLd

/-- Witness for C3: concrete one-meal states and identifiers absent from
them. -/
theorem unknown_id_update_delete_noop_witness :
    (dataReducer testState (.UPDATE_MEAL "zz" {})).meals = testState.meals ∧
      (dataReducer testState (.DELETE_MEAL "zz")).meals = testState.meals ∧
      (LocalStore.dataReducer LocalStore.lsTestState
        (.UPDATE_MEAL { LocalStore.lsMealN1 with id := "zz" })).meals
        = LocalStore.lsTestState.meals ∧
      (LocalStore.dataReducer LocalStore.lsTestState (.DELETE_MEAL "zz")).meals
        = LocalStore.lsTestState.meals :=
  unknown_id_update_delete_noop testState "zz" {} LocalStore.lsTestState
    { LocalStore.lsMealN1 with id := "zz" } "zz" (by decide) (by decide) (by decide)

/-- C4 counterexample: calling `updateSettings` with daily calories 0 (the
settings row otherwise untouched) issues exactly one request to the remote
persistence layer — the claim that the persistence layer is never invoked,
the input being rejected locally, is false.  The rejection comes from the
remote CHECK constraint, after the call. -/
theorem update_settings_invokes_persistence_cex :
    (updateSettings (dbUpdateSettings initialState.settings "t1")
        invalidGoalsUpdate initialState).2.1 = [invalidGoalsUpdate] ∧
      [invalidGoalsUpdate] ≠ ([] : List SettingsUpdate) ∧
      (updateSettings (dbUpdateSettings initialState.settings "t1")
        invalidGoalsUpdate initialState).2.2 = .error .checkViolation := by
  refine ⟨?_, by simp, ?_⟩ <;>
    simp [updateSettings, dbUpdateSettings, invalidGoalsUpdate, initialState]

/-- C4 as amended: the local positivity gate lives in the settings form
handler, not in `updateSettings`.  `handleSave` with calories 0 or protein
-1 returns without invoking the goals update; `updateSettings` itself always
issues the persistence request, whatever the values, and when the remote
rejects (as the CHECK constraints do for calories 0 or protein -1) the
stored settings are unchanged and the error is rethrown. -/
theorem settings_validation_in_form_not_store :
    (∀ p : Option Rat, SettingsPanel.handleSave (some 0) p = none) ∧
      (∀ c : Option Int, SettingsPanel.handleSave c (some (-1)) = none) ∧
      (∀ (update : SettingsUpdate → Except DbError Settings) (u : SettingsUpdate)
          (s : DataState), (updateSettings update u s).2.1 = [u]) ∧
      (∀ (u : SettingsUpdate) (s : DataState) (e : DbError),
        updateSettings (fun _ => .error e) u s = (s, [u], .error e)) ∧
      (∀ (row : Settings) (now : String) (i : Option String) (p : Option Rat)
          (ca ua : Option String),
        dbUpdateSettings row now
            { id := i, daily_calories := some 0, daily_protein := p,
              created_at := ca, updated_at := ua } = .error .checkViolation) ∧
      (∀ (row : Settings) (now : String) (i : Option String) (c : Option Int)
          (ca ua : Option String),
        dbUpdateSettings row now
            { id := i, daily_calories := c, daily_protein := some (-1),
              created_at := ca, updated_at := ua } = .error .checkViolation) := by
  refine ⟨?_, ?_, ?_, ?_, ?_, ?_⟩
  · intro p
    cases p <;> simp [SettingsPanel.handleSave]
  · intro c
    cases c <;> simp [SettingsPanel.handleSave]
  · intro update u s
    cases h : update u <;> simp [updateSettings, h]
  · intro u s e
    simp [updateSettings]
  · intro row now i p ca ua
    simp [dbUpdateSettings]
  · intro row now i c ca ua
    have hneg : ¬ (0 : Rat) < -1 := by norm_num
    simp [dbUpdateSettings, hneg]

end SupabaseStore

namespace SupabaseStore

/-- C5 counterexample: a two-record import whose first record's create
rejects.  The attempted-request list stops at the first record (the second
record is never attempted — it is not in the list) and the whole import
rejects with that error: one record's failure aborts the processing of the
remaining records, and no per-record success report is produced. -/
theorem import_data_aborts_cex :
    importData failOnTestFood (fun _ => .error (.failure "unreached")) "d" "t"
        { meals := some [mealM1, mealM2], settings := none, exportedAt := "e" } initialState
      = (initialState, [toMealInput "d" "t" mealM1], .error (.failure "insert failed")) ∧
      toMealInput "d" "t" mealM2 ∉ [toMealInput "d" "t" mealM1] := by
  constructor
  · simp [importData, importMeals, failOnTestFood, toMealInput, mealM1]
  · decide

/-- C5 as amended: importData is not best-effort per record — when the
create of the first record of the payload rejects, no later record is
attempted (the attempted-request list holds only the failing request), the
already unchanged state is kept, and the whole import rejects with that
single error. -/
theorem import_data_aborts_on_first_failure
    (create : MealInput → Except DbError Meal)
    (update : SettingsUpdate → Except DbError Settings)
    (nowDate nowTime exportedAt : String) (m : Meal) (rest : List Meal)
    (settings : Option Settings) (s : DataState) (e : DbError)
    (h : create (toMealInput nowDate nowTime m) = .error e) :
    importData create update nowDate nowTime
        { meals := some (m :: rest), settings := settings, exportedAt := exportedAt } s
      = (s, [toMealInput nowDate nowTime m], .error e) := by
  simp [importData, importMeals, h]

/-- Witness for C5: the amended statement applied to the concrete rejecting
remote and the concrete two-record payload. -/
theorem import_data_aborts_on_first_failure_witness :
    importData failOnTestFood (fun _ => .error (.failure "unreached")) "d" "t"
        { meals := some (mealM1 :: [mealM2]), settings := none, exportedAt := "e" } testState
      = (testState, [toMealInput "d" "t" mealM1], .error (.failure "insert failed")) :=
  import_data_aborts_on_first_failure failOnTestFood
    (fun _ => .error (.failure "unreached")) "d" "t" "e" mealM1 [mealM2] none testState
    (.failure "insert failed") rfl

/-- C7: on a successful create the Supabase-variant `addMeal` dispatches
`ADD_MEAL` with the full server-returned record; the localStorage-variant
`addMeal` builds the full record from its input plus the assigned identifier
and timestamps, dispatches it, and resolves with that record; concretely,
adding the Test Food input on the empty freshly initialized store resolves
with a record carrying those fields plus the assigned identifier, after
which the meal collection has length 1 and that record's calories equal
200. -/
theorem add_meal_success_scenario :
    (∀ (r : Meal) (inp : MealInput) (s : DataState),
      addMeal (fun _ => .ok r) inp s = (dataReducer s (.ADD_MEAL r), .ok ())) ∧
      (∀ (genId now : String) (inp : LocalStore.MealInput) (ls : LocalStore.DataState),
        (LocalStore.addMeal genId now inp ls).2 =
          { id := genId, date := inp.date, time := inp.time, food_name := inp.food_name,
            amount := inp.amount, calories := inp.calories, protein := inp.protein,
            carbs := inp.carbs, fat := inp.fat, fiber := inp.fiber, sugar := inp.sugar,
            sodium := inp.sodium, image_url := inp.image_url,
            created_at := now, updated_at := now } ∧
        (LocalStore.addMeal genId now inp ls).1.meals
          = ls.meals ++ [(LocalStore.addMeal genId now inp ls).2]) ∧
      ((LocalStore.addMeal "gen1" "now1" LocalStore.testLsInput LocalStore.initialState).1.meals.length
          = 1 ∧
        (LocalStore.addMeal "gen1" "now1" LocalStore.testLsInput LocalStore.initialState).2.calories
          = 200 ∧
        (LocalStore.addMeal "gen1" "now1" LocalStore.testLsInput LocalStore.initialState).2.food_name
          = "Test Food" ∧
        (LocalStore.addMeal "gen1" "now1" LocalStore.testLsInput LocalStore.initialState).2.id
          = "gen1" ∧
        (LocalStore.addMeal "gen1" "now1" LocalStore.testLsInput LocalStore.initialState).1.meals
          = [(LocalStore.addMeal "gen1" "now1" LocalStore.testLsInput LocalStore.initialState).2]) := by
  refine ⟨fun r inp s => rfl, fun genId now inp ls => ⟨rfl, rfl⟩, ?_⟩
  refine ⟨rfl, ?_, rfl, rfl, rfl⟩
  decide

end SupabaseStore

namespace SupabaseStore

/-- Stripping a stored meal into a create request preserves the
client-supplied fields when date and time are non-empty (the falsy
fallbacks do not fire). -/
theorem inputFields_toMealInput (nowDate nowTime : String) (m : Meal)
    (hd : m.date ≠ "") (ht : m.time ≠ "") :
    inputFields (toMealInput nowDate nowTime m) = mealFields m := by
  simp [inputFields, toMealInput, mealFields, hd, ht]

/-- When every create succeeds and echoes the request fields (the
collaborator contract), the meal loop of `importData` appends one created
record per imported meal, in order, with the same client-supplied fields. -/
theorem import_meals_echo
    (create : MealInput → Except DbError Meal) (nowDate nowTime : String)
    (hcreate : ∀ inp, ∃ r, create inp = .ok r ∧ mealFields r = inputFields inp) :
    ∀ (ms : List Meal) (s : DataState),
      (∀ m ∈ ms, m.date ≠ "" ∧ m.time ≠ "") →
      ∃ created : List Meal,
        importMeals create nowDate nowTime ms s
          = ({ s with meals := s.meals ++ created },
             ms.map (toMealInput nowDate nowTime), .ok ()) ∧
        created.map mealFields = ms.map mealFields := by
  intro ms
  induction ms with
  | nil =>
    intro s _
    refine ⟨[], ?_, rfl⟩
    simp [importMeals]
  | cons m rest ih =>
    intro s hvalid
    obtain ⟨r, hr, hfields⟩ := hcreate (toMealInput nowDate nowTime m)
    obtain ⟨created, hrec, hcf⟩ :=
      ih (dataReducer s (.ADD_MEAL r)) fun x hx => hvalid x (List.mem_cons_of_mem m hx)
    refine ⟨r :: created, ?_, ?_⟩
    · simp only [importMeals, hr, dataReducer] at hrec ⊢
      rw [hrec]
      simp
    · have hm := hvalid m (List.mem_cons_self m rest)
      simp only [List.map_cons, hcf]
      rw [hfields, inputFields_toMealInput nowDate nowTime m hm.1 hm.2]

/-- C6: for any remote whose create echoes the request fields under fresh
identifiers and whose settings update echoes the requested goal fields (the
collaborator contract), importing the export of a state with a non-empty
collection of valid meals into a fresh store yields a successful import
whose meal records are field-wise equal to the originals (identifiers and
timestamps aside, which re-import strips and the server re-assigns) and
whose settings carry the original daily goals. -/
theorem export_import_round_trip
    (create : MealInput → Except DbError Meal)
    (update : SettingsUpdate → Except DbError Settings)
    (nowExport nowDate nowTime : String) (s dest : DataState)
    (hdest : dest.meals = [])
    (_hne : s.meals ≠ [])
    (hvalid : ∀ m ∈ s.meals, validMeal m)
    (hcreate : ∀ inp, ∃ r, create inp = .ok r ∧ mealFields r = inputFields inp)
    (hupdate : ∀ (u : SettingsUpdate) (c : Int) (p : Rat),
      u.daily_calories = some c → u.daily_protein = some p →
      ∃ r, update u = .ok r ∧ r.daily_calories = c ∧ r.daily_protein = p) :
    ∃ (s2 : DataState) (att : List MealInput),
      importData create update nowDate nowTime (exportData s nowExport) dest
          = (s2, att, .ok ()) ∧
        s2.meals.map mealFields = s.meals.map mealFields ∧
        s2.settings.daily_calories = s.settings.daily_calories ∧
        s2.settings.daily_protein = s.settings.daily_protein := by
  obtain ⟨created, hmeals, hcf⟩ :=
    import_meals_echo create nowDate nowTime hcreate s.meals dest
      fun m hm => ⟨(hvalid m hm).1, (hvalid m hm).2.1⟩
  obtain ⟨r, hr, hc, hp⟩ :=
    hupdate (stripSettings s.settings) s.settings.daily_calories
      s.settings.daily_protein rfl rfl
  refine ⟨dataReducer { dest with meals := dest.meals ++ created } (.SET_SETTINGS r),
    s.meals.map (toMealInput nowDate nowTime), ?_, ?_, ?_, ?_⟩
  · simp only [importData, exportData, hmeals, importSettingsStep, hr]
  · simpa [dataReducer, hdest] using hcf
  · simpa [dataReducer] using hc
  · simpa [dataReducer] using hp

/-- Witness for C6: the round trip of the concrete one-meal ready state
through the concrete echoing remote into the freshly initialized store. -/
theorem export_import_round_trip_witness :
    ∃ (s2 : DataState) (att : List MealInput),
      importData okCreate okSettingsUpdate "d" "t" (exportData testState "e") initialState
          = (s2, att, .ok ()) ∧
        s2.meals.map mealFields = testState.meals.map mealFields ∧
        s2.settings.daily_calories = testState.settings.daily_calories ∧
        s2.settings.daily_protein = testState.settings.daily_protein :=
  export_import_round_trip okCreate okSettingsUpdate "e" "d" "t" testState initialState
    rfl (by decide) (by decide)
    (fun inp => ⟨echoCreate inp, rfl, rfl⟩)
    (fun u c p hc hp => ⟨_, rfl, by simp [okSettingsUpdate, hc], by simp [okSettingsUpdate, hp]⟩)

end SupabaseStore
